import Mathlib

/-!
Shallow embedding of the blackbox_exporter probe engine
(`main.go`, `tcp.go`, and the HTTP prober test suite).

Modelling conventions:
* Go `float64` values are embedded as exact rationals (`Rat`); the claims
  under study are about the algebraic relations between emitted values,
  not about rounding.
* `time.Duration` and timestamps are nanosecond counts (`Nat`).
* External effects (the network connection, the Go regexp package, the
  wall clock) are supplied as oracle parameters, so the embedded code is
  a pure function of the oracle; the oracle records exactly the
  information the Go standard library returns to the program.
* Effects the program performs (HTTP error responses, metric lines
  written to the response, registry observations, connection writes,
  deadline settings) are returned as explicit traces.
-/

namespace Blackbox

/-- `type Metric struct { Name string; FloatValue float64 }` from main.go. -/
structure Metric where
  name : String
  floatValue : Rat
deriving Repr, DecidableEq

/-- `type HTTPProbe struct {...}` from main.go (the yaml option fields). -/
structure HTTPProbe where
  validStatusCodes : List Int := []
  noFollowRedirects : Bool := false
  failIfSSL : Bool := false
  failIfNotSSL : Bool := false
  method : String := ""
  failIfMatchesRegexp : List String := []
  failIfNotMatchesRegexp : List String := []
  path : String := ""
deriving Repr, DecidableEq

/-- `type QueryResponse struct { Expect string; Send string }` from main.go. -/
structure QueryResponse where
  expect : String := ""
  send : String := ""
deriving Repr, DecidableEq

/-- `type TCPProbe struct { QueryResponse []QueryResponse }` from main.go. -/
structure TCPProbe where
  queryResponse : List QueryResponse := []
deriving Repr, DecidableEq

/-- `type ICMPProbe struct {}` from main.go. -/
structure ICMPProbe where
deriving Repr, DecidableEq

/-- `type Module struct` from main.go; `timeout` is in nanoseconds. -/
structure Module where
  prober : String := ""
  timeout : Nat := 0
  http : HTTPProbe := {}
  tcp : TCPProbe := {}
  icmp : ICMPProbe := {}
deriving Repr, DecidableEq

/-- `type Config struct { Modules map[string]Module }` from main.go; the Go
map is embedded as an association list consulted with `List.lookup`. -/
structure Config where
  modules : List (String × Module) := []

/-- The type of a prober: `func(string, Module, chan<- Metric) bool`.
The metrics the prober sends on the channel are returned as a list, in
emission order, next to the returned boolean. -/
def ProberFn : Type := String → Module → List Metric × Bool

/-- Everything `probeHandler` in main.go does that is visible outside it,
as explicit traces: the `http.Error` call if one happened, whether a
prober was invoked, the metric lines written to the response writer in
order, and the observations/increments made on the three registry
collectors (`probeLatencies`, `probeHistogram`, `probeCounter`), each a
list of (module label, success label [, observed value]) in call order. -/
structure HandlerOutcome where
  httpError : Option (Nat × String) := none
  proberInvoked : Bool := false
  responseMetrics : List Metric := []
  summaryObservations : List (String × String × Rat) := []
  histogramObservations : List (String × String × Rat) := []
  counterIncrements : List (String × String) := []
deriving DecidableEq

/-- The module-name defaulting of `probeHandler`:
`if moduleName == "" { moduleName = "http2xx" }`. -/
def effectiveModuleName (moduleName : String) : String :=
  if moduleName = "" then "http2xx" else moduleName

/-- `probeHandler` from main.go.  `probers` embeds the global `Probers`
map (an association list, since the two probers other than `probeTCP`
are outside this embedding), and `elapsedNs` is the wall-clock oracle:
the value of `time.Now().Sub(start).Nanoseconds()` measured around the
prober call.  `latency` is that count divided by `1e6` (milliseconds),
exactly as in the source. -/
def probeHandler (probers : List (String × ProberFn)) (config : Config)
    (target moduleName : String) (elapsedNs : Nat) : HandlerOutcome :=
  if target = "" then
    { httpError := some (400, "Target parameter is missing") }
  else
    let moduleName := effectiveModuleName moduleName
    match config.modules.lookup moduleName with
    | none => { httpError := some (400, "Unkown module " ++ moduleName) }
    | some m =>
      match probers.lookup m.prober with
      | none => { httpError := some (400, "Unkown prober " ++ m.prober) }
      | some prober =>
        let proberMetrics := (prober target m).1
        let success := (prober target m).2
        let latency : Rat := (elapsedNs : Rat) / 1000000
        let successString := if success then "true" else "false"
        { httpError := none
          proberInvoked := true
          responseMetrics := proberMetrics
            ++ [⟨"probe_duration_seconds", latency / 1000⟩,
                ⟨"probe_success", if success then 1 else 0⟩]
          summaryObservations := [(moduleName, successString, latency)]
          histogramObservations := [(moduleName, successString, latency)]
          counterIncrements := [(moduleName, successString)] }

/-!
Embedding of `probeTCP` (tcp.go).  The Go standard library calls it
makes — `net.DialTimeout`, `conn.SetDeadline`, `bufio.Scanner` over the
connection, `regexp.Compile` / `FindSubmatchIndex` / `Expand`, and
`fmt.Fprintf` writes — are supplied as an oracle `TCPEnv`:
* `dialOk` / `setDeadlineOk`: whether the dial and the deadline call succeed;
* `lines`: the lines the scanner will deliver, in order, before `Scan`
  returns false (by EOF, deadline expiry or read error);
* `scanErr`: whether, once `lines` is exhausted, `scanner.Err()` is
  non-nil (deadline/read error) rather than nil (plain EOF) — both paths
  make the step fail in the source;
* `compileOk p`: whether `regexp.Compile p` succeeds;
* `matchesLine p l`: whether `re.FindSubmatchIndex` on line `l` is non-nil
  for the compiled pattern `p`;
* `expand p tmpl l`: the string `re.Expand(nil, tmpl, l, match)` produces
  for pattern `p`, template `tmpl` and matched line `l`;
* `writeOk i`: whether the `i`-th write on the connection succeeds.
-/

structure TCPEnv where
  dialOk : Bool
  setDeadlineOk : Bool
  lines : List String
  scanErr : Bool
  compileOk : String → Bool
  matchesLine : String → String → Bool
  expand : String → String → String → String
  writeOk : Nat → Bool

/-- The mutable connection-side state threaded through the step loop of
`probeTCP`: the lines the scanner has not yet delivered, the number of
write attempts so far, and the strings successfully written (each one a
`send` followed by the newline `fmt.Fprintf(conn, "%s\n", send)` adds). -/
structure TCPState where
  pending : List String
  writeAttempts : Nat
  written : List String
deriving DecidableEq

/-- Connection state at scanner creation: nothing read, nothing written. -/
def initState (env : TCPEnv) : TCPState :=
  { pending := env.lines, writeAttempts := 0, written := [] }

/-- The inner `for scanner.Scan() { ... if match != nil break }` loop:
deliver lines one at a time until one matches the pattern; return the
matching line and the still-undelivered rest, or `none` if the scanner
is exhausted without a match. -/
def scanUntilMatch (env : TCPEnv) (pat : String) : List String → Option (String × List String)
  | [] => none
  | l :: ls =>
    if env.matchesLine pat l then some (l, ls) else scanUntilMatch env pat ls

/-- The tail of one loop iteration of `probeTCP`:
`if send != "" { if _, err := fmt.Fprintf(conn, "%s\n", send); err != nil { return false } }`.
A non-empty `send` is written followed by a newline; a failed write makes
the whole probe fail; an empty `send` performs no write at all. -/
def writePhase (env : TCPEnv) (st : TCPState) (send : String) : TCPState × Bool :=
  if send = "" then (st, true)
  else if env.writeOk st.writeAttempts then
    ({ st with writeAttempts := st.writeAttempts + 1
               written := st.written ++ [send ++ "\n"] }, true)
  else ({ st with writeAttempts := st.writeAttempts + 1 }, false)

/-- One iteration of the `for _, qr := range module.TCP.QueryResponse`
loop in `probeTCP`.  With an `expect` pattern: a compile failure returns
false immediately; otherwise lines are scanned until one matches; if the
scanner is exhausted without a match, both the `scanner.Err() != nil`
check and the `match == nil` check return false; on a match, `send` is
replaced by the regexp expansion of the template against the matched
line.  Then the write phase runs. -/
def processStep (env : TCPEnv) (st : TCPState) (qr : QueryResponse) : TCPState × Bool :=
  if qr.expect = "" then
    writePhase env st qr.send
  else if env.compileOk qr.expect then
    match scanUntilMatch env qr.expect st.pending with
    | none =>
      -- scanner exhausted: `scanner.Err() != nil` or `match == nil`, both false
      ({ st with pending := [] }, false)
    | some (l, rest) =>
      writePhase env { st with pending := rest } (env.expand qr.expect qr.send l)
  else (st, false)

/-- The whole step loop: steps run strictly in declared order; the first
failing step ends the loop with false; an exhausted list returns true. -/
def runSteps (env : TCPEnv) (st : TCPState) : List QueryResponse → TCPState × Bool
  | [] => (st, true)
  | qr :: qrs =>
    let r := processStep env st qr
    if r.2 then runSteps env r.1 qrs else r

/-- The externally visible behavior of one `probeTCP` call: the returned
boolean, the absolute deadlines passed to `conn.SetDeadline` (in call
order), the final connection state, and the metrics sent to the sink
channel (the source never sends any). -/
structure TCPResult where
  success : Bool
  deadlinesSet : List Nat
  finalState : TCPState
  emitted : List Metric

/-- `probeTCP` from tcp.go.  `now` is the wall-clock oracle for the
`time.Now()` call at entry, so `deadline = now + module.timeout` is
computed before dialing; it is passed to `conn.SetDeadline` once, right
after a successful dial, and never again. -/
def probeTCP (env : TCPEnv) (now : Nat) (target : String) (module : Module) :
    TCPResult :=
  let deadline := now + module.timeout
  if env.dialOk then
    if env.setDeadlineOk then
      let r := runSteps env (initState env) module.tcp.queryResponse
      { success := r.2, deadlinesSet := [deadline], finalState := r.1, emitted := [] }
    else
      { success := false, deadlinesSet := [deadline], finalState := initState env
        emitted := [] }
  else
    { success := false, deadlinesSet := [], finalState := initState env, emitted := [] }

/-- Modelled from the spec: the status-code evaluation step of the HTTP
prober (`probeHTTP`), whose implementation file is not among the sources;
only its test suite (`TestHTTPStatusCodes`) is.  Spec §4.2 step 6:
success requires the status code to be in `valid_status_codes` if that
set is non-empty, else in `[200,300)`. -/
def statusCodeOk (validStatusCodes : List Int) (statusCode : Int) : Bool :=
  if validStatusCodes.isEmpty then
    200 ≤ statusCode && statusCode < 300
  else
    validStatusCodes.contains statusCode

/-- The table of `TestHTTPStatusCodes`: (StatusCode, ValidStatusCodes,
ShouldSucceed) rows, transcribed from the test file. -/
def httpStatusCodeTests : List (Int × List Int × Bool) :=
  [(200, [], true),
   (201, [], true),
   (299, [], true),
   (300, [], false),
   (404, [], false),
   (404, [200, 404], true),
   (200, [200, 404], true),
   (201, [200, 404], false),
   (404, [404], true),
   (200, [404], false)]

/-- The example configuration of the README (`## Configuration`): modules
`http_2xx`, `tcp_connect`, `ssh_banner`, `irc_banner`, `icmp`; note no
module is named `http2xx`.  Timeouts of 5s are 5000000000 ns. -/
def readmeConfig : Config :=
  { modules :=
      [("http_2xx",
        { prober := "http", timeout := 5000000000
          http := { validStatusCodes := [], method := "GET"
                    noFollowRedirects := false, failIfSSL := false
                    failIfNotSSL := false
                    failIfMatchesRegexp := ["Could not connect to database"]
                    failIfNotMatchesRegexp := ["Download the latest version here"]
                    path := "/" } }),
       ("tcp_connect", { prober := "tcp", timeout := 5000000000 }),
       ("ssh_banner",
        { prober := "tcp", timeout := 5000000000
          tcp := { queryResponse := [{ expect := "^SSH-2.0-" }] } }),
       ("irc_banner",
        { prober := "tcp", timeout := 5000000000
          tcp := { queryResponse :=
                     [{ send := "NICK prober" },
                      { send := "USER prober prober prober :prober" },
                      { expect := "PING :([^ ]+)", send := "PONG ${1}" },
                      { expect := "^:[^ ]+ 001" }] } }),
       ("icmp", { prober := "icmp", timeout := 5000000000 })] }

/-! Helper lemmas shared by the claim theorems, and concrete fixtures
used by the witnesses. -/

theorem runSteps_append (env : TCPEnv) (st : TCPState)
    (s₁ s₂ : List QueryResponse) :
    runSteps env st (s₁ ++ s₂)
      = (let r := runSteps env st s₁
         if r.2 then runSteps env r.1 s₂ else r) := by
  induction s₁ generalizing st with
  | nil => simp [runSteps]
  | cons qr qrs ih =>
    simp only [List.cons_append, runSteps]
    by_cases h : (processStep env st qr).2 <;> simp [h, ih]

theorem runSteps_cons_fail (env : TCPEnv) (st st₂ : TCPState)
    (qr : QueryResponse) (qrs : List QueryResponse)
    (h : processStep env st qr = (st₂, false)) :
    runSteps env st (qr :: qrs) = (st₂, false) := by
  simp [runSteps, h]

theorem scanUntilMatch_eq_none_iff (env : TCPEnv) (pat : String)
    (ls : List String) :
    scanUntilMatch env pat ls = none
      ↔ ∀ l ∈ ls, env.matchesLine pat l = false := by
  induction ls with
  | nil => simp [scanUntilMatch]
  | cons l ls ih =>
    by_cases h : env.matchesLine pat l <;> simp [scanUntilMatch, h, ih]

theorem scanUntilMatch_of_split (env : TCPEnv) (pat : String)
    (pre : List String) (l : String) (rest : List String)
    (hpre : ∀ l' ∈ pre, env.matchesLine pat l' = false)
    (hl : env.matchesLine pat l = true) :
    scanUntilMatch env pat (pre ++ l :: rest) = some (l, rest) := by
  induction pre with
  | nil => simp [scanUntilMatch, hl]
  | cons p ps ih =>
    simp only [List.cons_append, scanUntilMatch, hpre p (by simp)]
    simp only [Bool.false_eq_true, if_false]
    exact ih fun l' h => hpre l' (by simp [h])

theorem rat_millis_to_seconds (x : Rat) :
    x / 1000000 / 1000 = x / 1000000000 := by
  rw [div_div]
  norm_num

theorem rat_seconds_to_millis (x : Rat) :
    (1000 : Rat) * (x / 1000000000) = x / 1000000 := by
  field_simp
  ring

/-- Fixture: every external interaction succeeds, the connection delivers
no lines. -/
def envAllOk : TCPEnv :=
  { dialOk := true, setDeadlineOk := true, lines := [], scanErr := false
    compileOk := fun _ => true, matchesLine := fun _ _ => true
    expand := fun _ tmpl _ => tmpl, writeOk := fun _ => true }

/-- Fixture: connection and deadline succeed but every pattern fails to
compile. -/
def envBadPattern : TCPEnv :=
  { envAllOk with compileOk := fun _ => false }

/-- Fixture: dial succeeds, setting the deadline fails. -/
def envNoDeadline : TCPEnv :=
  { envAllOk with setDeadlineOk := false }

/-- Fixture: a prober emitting a fixed metric list and result. -/
def constProber (ms : List Metric) (b : Bool) : ProberFn := fun _ _ => (ms, b)

/-- Fixture: one module named `m` using the `tcp` prober key. -/
def testConfig : Config := { modules := [("m", { prober := "tcp" })] }

/-- Fixture: a probers map with one registered key. -/
def testProbers : List (String × ProberFn) :=
  [("tcp", constProber [⟨"probe_x", 7⟩] true)]

/-- Sanity check grounding the spec-modelled status evaluation in the
sources: `statusCodeOk` reproduces every row of `TestHTTPStatusCodes`. -/
theorem statusCodeOk_matches_test_table :
    ∀ t ∈ httpStatusCodeTests, statusCodeOk t.2.1 t.1 = t.2.2 := by
  decide

/-- C2: for every HTTP probe response with status code `s` and configured
valid-status-code set `V`, the status-code check succeeds iff
(`V` is empty and `200 ≤ s < 300`) or (`V` is non-empty and `s ∈ V`);
a non-empty `V` is used exclusively, the default 2xx range is not
additionally accepted. -/
theorem statusCodeOk_iff (V : List Int) (s : Int) :
    statusCodeOk V s = true
      ↔ ((V = [] ∧ 200 ≤ s ∧ s < 300) ∨ (V ≠ [] ∧ s ∈ V)) := by
  cases V with
  | nil => simp [statusCodeOk]
  | cons v vs => simp [statusCodeOk]

/-- C4: TCP steps run strictly in declared order (running `s₁ ++ s₂`
runs `s₁` first and continues with `s₂` from the state `s₁` left,
exactly when `s₁` succeeded); the probe succeeds iff dial and deadline
setup succeed and every step completes; after a failing prefix the
remaining steps are never executed. -/
theorem probeTCP_steps_in_order (env : TCPEnv) (now : Nat) (target : String)
    (module : Module) :
    ((probeTCP env now target module).success = true
      ↔ env.dialOk = true ∧ env.setDeadlineOk = true ∧
        (runSteps env (initState env) module.tcp.queryResponse).2 = true)
    ∧ (∀ (st : TCPState) (s₁ s₂ : List QueryResponse),
        (runSteps env st s₁).2 = false →
        runSteps env st (s₁ ++ s₂) = runSteps env st s₁)
    ∧ (∀ (st : TCPState) (s₁ s₂ : List QueryResponse),
        (runSteps env st s₁).2 = true →
        runSteps env st (s₁ ++ s₂)
          = runSteps env (runSteps env st s₁).1 s₂) := by
  refine ⟨?_, ?_, ?_⟩
  · by_cases hd : env.dialOk <;> by_cases hs : env.setDeadlineOk <;>
      simp [probeTCP, hd, hs]
  · intro st s₁ s₂ h
    rw [runSteps_append]
    simp [h]
  · intro st s₁ s₂ h
    rw [runSteps_append]
    simp [h]

/-- C4 witness: with one failing step followed by one more step, the
second step is not executed. -/
theorem probeTCP_steps_in_order_witness :
    runSteps envBadPattern (initState envBadPattern)
        ([⟨"(", ""⟩] ++ [⟨"", "x"⟩])
      = runSteps envBadPattern (initState envBadPattern) [⟨"(", ""⟩] :=
  (probeTCP_steps_in_order envBadPattern 0 "t" {}).2.1
    (initState envBadPattern) [⟨"(", ""⟩] [⟨"", "x"⟩] (by decide)

/-- C5: for a step with a non-empty expect pattern: a pattern that does
not compile fails the step immediately with nothing read; when it
compiles, lines are consumed one at a time until the first match (the
matched line feeding the send expansion); if no pending line matches the
step fails with the scanner exhausted; a failing step makes the whole
step loop return false at once. -/
theorem probeTCP_expect_semantics (env : TCPEnv) (st : TCPState)
    (qr : QueryResponse) (he : qr.expect ≠ "") :
    (env.compileOk qr.expect = false → processStep env st qr = (st, false))
    ∧ (env.compileOk qr.expect = true →
        ((∀ l ∈ st.pending, env.matchesLine qr.expect l = false) →
          processStep env st qr = ({ st with pending := [] }, false))
        ∧ (∀ (pre : List String) (l : String) (rest : List String),
            st.pending = pre ++ l :: rest →
            (∀ l' ∈ pre, env.matchesLine qr.expect l' = false) →
            env.matchesLine qr.expect l = true →
            processStep env st qr
              = writePhase env { st with pending := rest }
                  (env.expand qr.expect qr.send l)))
    ∧ (∀ (st₂ : TCPState) (qrs : List QueryResponse),
        processStep env st qr = (st₂, false) →
        runSteps env st (qr :: qrs) = (st₂, false)) := by
  refine ⟨?_, fun hc => ⟨?_, ?_⟩, ?_⟩
  · intro hc
    simp [processStep, he, hc]
  · intro hnone
    simp [processStep, he, hc, (scanUntilMatch_eq_none_iff env qr.expect st.pending).2 hnone]
  · intro pre l rest hsplit hpre hl
    simp [processStep, he, hc, hsplit,
      scanUntilMatch_of_split env qr.expect pre l rest hpre hl]
  · intro st₂ qrs h
    exact runSteps_cons_fail env st st₂ qr qrs h

/-- C5 witness: a malformed pattern fails the step at once with nothing
read from the connection. -/
theorem probeTCP_expect_semantics_witness :
    processStep envBadPattern (initState envBadPattern) ⟨"(", ""⟩
      = (initState envBadPattern, false) :=
  (probeTCP_expect_semantics envBadPattern (initState envBadPattern) ⟨"(", ""⟩
    (by decide)).1 rfl

/-- C6: the text sent by a step is the expansion of the send template
against the matched line when the step had an expect pattern, and the
verbatim send string when it had none; a non-empty text is written
followed by a newline, an empty text is not written at all, and a failed
write fails the step and hence the whole step loop. -/
theorem probeTCP_send_semantics (env : TCPEnv) (st : TCPState)
    (qr : QueryResponse) :
    (qr.expect = "" → processStep env st qr = writePhase env st qr.send)
    ∧ (∀ (l : String) (rest : List String), qr.expect ≠ "" →
        env.compileOk qr.expect = true →
        scanUntilMatch env qr.expect st.pending = some (l, rest) →
        processStep env st qr
          = writePhase env { st with pending := rest }
              (env.expand qr.expect qr.send l))
    ∧ writePhase env st "" = (st, true)
    ∧ (∀ s : String, s ≠ "" → env.writeOk st.writeAttempts = true →
        writePhase env st s
          = ({ st with writeAttempts := st.writeAttempts + 1
                       written := st.written ++ [s ++ "\n"] }, true))
    ∧ (∀ s : String, s ≠ "" → env.writeOk st.writeAttempts = false →
        writePhase env st s
          = ({ st with writeAttempts := st.writeAttempts + 1 }, false))
    ∧ (∀ (st₂ : TCPState) (qrs : List QueryResponse),
        processStep env st qr = (st₂, false) →
        runSteps env st (qr :: qrs) = (st₂, false)) := by
  refine ⟨?_, ?_, ?_, ?_, ?_, ?_⟩
  · intro he
    simp [processStep, he]
  · intro l rest he hc hscan
    simp [processStep, he, hc, hscan]
  · simp [writePhase]
  · intro s hs hw
    simp [writePhase, hs, hw]
  · intro s hs hw
    simp [writePhase, hs, hw]
  · intro st₂ qrs h
    exact runSteps_cons_fail env st st₂ qr qrs h

/-- C6 witness: a non-empty send is written with a trailing newline. -/
theorem probeTCP_send_semantics_witness :
    writePhase envAllOk (initState envAllOk) "hello"
      = ({ pending := [], writeAttempts := 1, written := ["hello\n"] }, true) := by
  have h := (probeTCP_send_semantics envAllOk (initState envAllOk)
    ⟨"", ""⟩).2.2.2.1 "hello" (by decide) rfl
  rw [h]
  rfl

/-- C7: exactly one absolute deadline, `now + module.timeout`, is set on
the connection once the dial succeeded, regardless of the step list (in
particular it is never reset between steps); a failed deadline call
fails the probe. -/
theorem probeTCP_single_deadline (env : TCPEnv) (now : Nat) (target : String)
    (module : Module) :
    ((probeTCP env now target module).deadlinesSet
        = if env.dialOk = true then [now + module.timeout] else [])
    ∧ (env.dialOk = true → env.setDeadlineOk = false →
        (probeTCP env now target module).success = false) := by
  by_cases hd : env.dialOk <;> by_cases hs : env.setDeadlineOk <;>
    simp [probeTCP, hd, hs]

/-- C7 witness: a failing deadline call fails the probe. -/
theorem probeTCP_single_deadline_witness :
    (probeTCP envNoDeadline 7 "t" {}).success = false :=
  (probeTCP_single_deadline envNoDeadline 7 "t" {}).2 rfl rfl

/-- C9: a TCP module with an empty step list succeeds iff dial and
deadline setup succeed; nothing is read, nothing is written, and no
metric is emitted to the sink. -/
theorem probeTCP_empty_steps (env : TCPEnv) (now : Nat) (target : String)
    (module : Module) (h : module.tcp.queryResponse = []) :
    ((probeTCP env now target module).success = true
      ↔ env.dialOk = true ∧ env.setDeadlineOk = true)
    ∧ (probeTCP env now target module).finalState.pending = env.lines
    ∧ (probeTCP env now target module).finalState.written = []
    ∧ (probeTCP env now target module).emitted = [] := by
  by_cases hd : env.dialOk <;> by_cases hs : env.setDeadlineOk <;>
    simp [probeTCP, hd, hs, h, runSteps, initState]

/-- C9 witness: the empty-step behavior at a concrete environment. -/
theorem probeTCP_empty_steps_witness :
    ((probeTCP envAllOk 0 "t" {}).success = true
      ↔ envAllOk.dialOk = true ∧ envAllOk.setDeadlineOk = true)
    ∧ (probeTCP envAllOk 0 "t" {}).finalState.pending = envAllOk.lines
    ∧ (probeTCP envAllOk 0 "t" {}).finalState.written = []
    ∧ (probeTCP envAllOk 0 "t" {}).emitted = [] :=
  probeTCP_empty_steps envAllOk 0 "t" {} rfl

/-- C1: once a prober runs, the response metrics are the prober-emitted
metrics followed by exactly `probe_duration_seconds` (the elapsed
wall-clock nanoseconds expressed in seconds, whatever the outcome) and
then `probe_success` (1 on success, 0 otherwise); `probe_success` is the
last metric and its value is 0 or 1. -/
theorem probeHandler_appends_duration_and_success
    (probers : List (String × ProberFn)) (config : Config)
    (target moduleName : String) (elapsedNs : Nat)
    (h : (probeHandler probers config target moduleName elapsedNs).proberInvoked
      = true) :
    ∃ (m : Module) (p : ProberFn),
      config.modules.lookup (effectiveModuleName moduleName) = some m
      ∧ probers.lookup m.prober = some p
      ∧ (probeHandler probers config target moduleName elapsedNs).responseMetrics
          = (p target m).1
            ++ [⟨"probe_duration_seconds", (elapsedNs : Rat) / 1000000000⟩,
                ⟨"probe_success", if (p target m).2 then 1 else 0⟩]
      ∧ (probeHandler probers config target moduleName
            elapsedNs).responseMetrics.getLast?
          = some ⟨"probe_success", if (p target m).2 then 1 else 0⟩
      ∧ ((if (p target m).2 then (1 : Rat) else 0) = 0
          ∨ (if (p target m).2 then (1 : Rat) else 0) = 1) := by
  by_cases ht : target = ""
  · simp [probeHandler, ht] at h
  · rcases hm : config.modules.lookup (effectiveModuleName moduleName) with _ | m
    · simp [probeHandler, ht, hm] at h
    · rcases hp : probers.lookup m.prober with _ | p
      · simp [probeHandler, ht, hm, hp] at h
      · refine ⟨m, p, rfl, hp, ?_, ?_, ?_⟩
        · simp [probeHandler, ht, hm, hp, rat_millis_to_seconds]
        · simp [probeHandler, ht, hm, hp]
        · by_cases hs : (p target m).2 <;> simp [hs]

/-- C1 witness: the appended metrics at a concrete prober, config and
elapsed time. -/
theorem probeHandler_appends_duration_and_success_witness :
    ∃ (m : Module) (p : ProberFn),
      testConfig.modules.lookup (effectiveModuleName "m") = some m
      ∧ testProbers.lookup m.prober = some p
      ∧ (probeHandler testProbers testConfig "t" "m" 2000000000).responseMetrics
          = (p "t" m).1
            ++ [⟨"probe_duration_seconds", ((2000000000 : Nat) : Rat) / 1000000000⟩,
                ⟨"probe_success", if (p "t" m).2 then 1 else 0⟩]
      ∧ (probeHandler testProbers testConfig "t" "m"
            2000000000).responseMetrics.getLast?
          = some ⟨"probe_success", if (p "t" m).2 then 1 else 0⟩
      ∧ ((if (p "t" m).2 then (1 : Rat) else 0) = 0
          ∨ (if (p "t" m).2 then (1 : Rat) else 0) = 1) :=
  probeHandler_appends_duration_and_success testProbers testConfig "t" "m"
    2000000000 rfl

/-- C3: a missing target, an unknown (effective) module name, or a module
whose prober key is not registered is answered with an HTTP 400 error;
no prober is invoked, no response metric is written, and none of the
three registry collectors is touched. -/
theorem probeHandler_client_error (probers : List (String × ProberFn))
    (config : Config) (target moduleName : String) (elapsedNs : Nat)
    (h : target = ""
      ∨ config.modules.lookup (effectiveModuleName moduleName) = none
      ∨ ∃ m, config.modules.lookup (effectiveModuleName moduleName) = some m
          ∧ probers.lookup m.prober = none) :
    (∃ msg, (probeHandler probers config target moduleName elapsedNs).httpError
        = some (400, msg))
    ∧ (probeHandler probers config target moduleName elapsedNs).proberInvoked
        = false
    ∧ (probeHandler probers config target moduleName elapsedNs).responseMetrics
        = []
    ∧ (probeHandler probers config target moduleName elapsedNs).summaryObservations
        = []
    ∧ (probeHandler probers config target moduleName
          elapsedNs).histogramObservations = []
    ∧ (probeHandler probers config target moduleName elapsedNs).counterIncrements
        = [] := by
  by_cases ht : target = ""
  · refine ⟨⟨"Target parameter is missing", ?_⟩, ?_, ?_, ?_, ?_, ?_⟩ <;>
      simp [probeHandler, ht]
  · rcases h with h | h | ⟨m, hm, hp⟩
    · exact absurd h ht
    · refine ⟨⟨"Unkown module " ++ effectiveModuleName moduleName, ?_⟩,
        ?_, ?_, ?_, ?_, ?_⟩ <;> simp [probeHandler, ht, h]
    · refine ⟨⟨"Unkown prober " ++ m.prober, ?_⟩, ?_, ?_, ?_, ?_, ?_⟩ <;>
        simp [probeHandler, ht, hm, hp]

/-- C3 witness: a request with a missing target is rejected with no
metrics and no registry updates. -/
theorem probeHandler_client_error_witness :
    (∃ msg, (probeHandler testProbers testConfig "" "m" 0).httpError
        = some (400, msg))
    ∧ (probeHandler testProbers testConfig "" "m" 0).proberInvoked = false
    ∧ (probeHandler testProbers testConfig "" "m" 0).responseMetrics = []
    ∧ (probeHandler testProbers testConfig "" "m" 0).summaryObservations = []
    ∧ (probeHandler testProbers testConfig "" "m" 0).histogramObservations = []
    ∧ (probeHandler testProbers testConfig "" "m" 0).counterIncrements = [] :=
  probeHandler_client_error testProbers testConfig "" "m" 0 (Or.inl rfl)

/-- C8: an absent module parameter is replaced by the fixed name
`http2xx` (no underscore) before the configuration lookup; the README
example configuration defines no module of that name, so such a request
is rejected as an unknown-module client error. -/
theorem probeHandler_default_module (probers : List (String × ProberFn))
    (config : Config) (target : String) (elapsedNs : Nat) (h : target ≠ "") :
    probeHandler probers config target "" elapsedNs
      = probeHandler probers config target "http2xx" elapsedNs
    ∧ readmeConfig.modules.lookup "http2xx" = none
    ∧ (probeHandler probers readmeConfig target "" elapsedNs).httpError
        = some (400, "Unkown module http2xx")
    ∧ (probeHandler probers readmeConfig target "" elapsedNs).proberInvoked
        = false := by
  have hl : readmeConfig.modules.lookup "http2xx" = none := rfl
  refine ⟨rfl, hl, ?_, ?_⟩ <;>
    simp [probeHandler, h, effectiveModuleName, hl]

/-- C8 witness: the defaulting and resulting README-config rejection at
concrete arguments. -/
theorem probeHandler_default_module_witness :
    probeHandler testProbers testConfig "t" "" 0
      = probeHandler testProbers testConfig "t" "http2xx" 0
    ∧ readmeConfig.modules.lookup "http2xx" = none
    ∧ (probeHandler testProbers readmeConfig "t" "" 0).httpError
        = some (400, "Unkown module http2xx")
    ∧ (probeHandler testProbers readmeConfig "t" "" 0).proberInvoked = false :=
  probeHandler_default_module testProbers testConfig "t" 0 (by decide)

/-- C10: when a prober runs, the summary and the histogram are each
observed exactly once with the same latency value, which is exactly 1000
times the value emitted as `probe_duration_seconds`, and the counter of
the (module, success) label pair is incremented exactly once. -/
theorem probeHandler_registry_relation (probers : List (String × ProberFn))
    (config : Config) (target moduleName : String) (elapsedNs : Nat)
    (h : (probeHandler probers config target moduleName elapsedNs).proberInvoked
      = true) :
    ∃ (successString : String) (lat d : Rat) (pm : List Metric)
        (lastMetric : Metric),
      (probeHandler probers config target moduleName
          elapsedNs).summaryObservations
        = [(effectiveModuleName moduleName, successString, lat)]
      ∧ (probeHandler probers config target moduleName
            elapsedNs).histogramObservations
        = [(effectiveModuleName moduleName, successString, lat)]
      ∧ (probeHandler probers config target moduleName
            elapsedNs).counterIncrements
        = [(effectiveModuleName moduleName, successString)]
      ∧ (probeHandler probers config target moduleName
            elapsedNs).responseMetrics
        = pm ++ [⟨"probe_duration_seconds", d⟩, lastMetric]
      ∧ lat = 1000 * d := by
  by_cases ht : target = ""
  · simp [probeHandler, ht] at h
  · rcases hm : config.modules.lookup (effectiveModuleName moduleName) with _ | m
    · simp [probeHandler, ht, hm] at h
    · rcases hp : probers.lookup m.prober with _ | p
      · simp [probeHandler, ht, hm, hp] at h
      · refine ⟨(if (p target m).2 then "true" else "false"),
          (elapsedNs : Rat) / 1000000, (elapsedNs : Rat) / 1000000000,
          (p target m).1,
          ⟨"probe_success", if (p target m).2 then 1 else 0⟩,
          ?_, ?_, ?_, ?_, ?_⟩ <;>
          simp [probeHandler, ht, hm, hp, rat_millis_to_seconds,
            rat_seconds_to_millis]

/-- C10 witness: the registry/latency relation at a concrete prober,
config and elapsed time. -/
theorem probeHandler_registry_relation_witness :
    ∃ (successString : String) (lat d : Rat) (pm : List Metric)
        (lastMetric : Metric),
      (probeHandler testProbers testConfig "t" "m" 2000000000).summaryObservations
        = [(effectiveModuleName "m", successString, lat)]
      ∧ (probeHandler testProbers testConfig "t" "m"
            2000000000).histogramObservations
        = [(effectiveModuleName "m", successString, lat)]
      ∧ (probeHandler testProbers testConfig "t" "m" 2000000000).counterIncrements
        = [(effectiveModuleName "m", successString)]
      ∧ (probeHandler testProbers testConfig "t" "m" 2000000000).responseMetrics
        = pm ++ [⟨"probe_duration_seconds", d⟩, lastMetric]
      ∧ lat = 1000 * d :=
  probeHandler_registry_relation testProbers testConfig "t" "m" 2000000000 rfl

end Blackbox
